import Mathlib

/-!
# Verification of the mpwrd-config remote radio configuration client

This file gives a shallow embedding, in Lean 4, of the core of
`mpwrd_config/meshtastic.py`: the schema resolver (`_set_pref`,
`_get_pref_value`), the batch apply engine (`_apply_preferences`), the
channel store (`channel_add`, `channel_delete`, `channel_enable`,
`channel_disable`), the session manager (`MeshtasticSession.get_interface`)
and the action executor (`_run_meshtastic_action`), together with theorems
settling the specification claims about them.

Python dictionaries keyed by field name are embedded as association lists,
protobuf message objects as association lists of present fields (a missing
entry reads as the protobuf default), and exceptions as an explicit `Py`
result type.  External collaborators (the device transport, the random key
generator) are parameters of the embedded functions.
-/

namespace MpwrdMeshtastic

/-- Mirrors the Python dataclass `MeshtasticResult(returncode, stdout)`. -/
structure MeshtasticResult where
  returncode : Int
  stdout : String
deriving Repr, DecidableEq

/-- Outcome of running a piece of Python code: a normal value or a raised
exception (carrying a short description of the exception). -/
inductive Py (α : Type) where
  | ok (a : α)
  | exc (msg : String)
deriving Repr, DecidableEq

/- ## Character and string helpers

The Python code manipulates strings through `str.split`, `str.lower`,
`camel_to_snake`, f-strings and `", ".join(sorted(...))`.  We implement
these over `List Char` with structural recursion so that every theorem
below can be settled by kernel evaluation. -/

/-- ASCII lower-casing of one character (`str.lower` on ASCII input). -/
def charLower (c : Char) : Char :=
  if c.val ≥ 65 ∧ c.val ≤ 90 then Char.ofNat (c.toNat + 32) else c

/-- ASCII `str.lower`. -/
def strLower (s : String) : String :=
  String.mk (s.data.map charLower)

/-- Is `c` an ASCII decimal digit? -/
def isDigitChar (c : Char) : Bool :=
  48 ≤ c.toNat ∧ c.toNat ≤ 57

/-- Is `c` an ASCII uppercase letter? -/
def isUpperChar (c : Char) : Bool :=
  65 ≤ c.toNat ∧ c.toNat ≤ 90

/-- `meshtastic.util.camel_to_snake` (external helper used by the resolver):
inserts `_` before every uppercase letter not at the start, then lowercases. -/
def camel_to_snake (s : String) : String :=
  match s.data with
  | [] => ""
  | c :: rest =>
    String.mk (charLower c ::
      rest.foldr (fun ch acc =>
        if isUpperChar ch then Char.ofNat 95 :: charLower ch :: acc
        else charLower ch :: acc) [])

/-- Split a character list at every occurrence of `sep`. -/
def splitCharsOn (sep : Char) : List Char → List (List Char)
  | [] => [[]]
  | c :: rest =>
    let tail := splitCharsOn sep rest
    if c = sep then [] :: tail
    else
      match tail with
      | [] => [[c]]
      | t :: ts => (c :: t) :: ts

/-- Python `s.split(".")` (the resolver only ever splits on a dot). -/
def splitDots (s : String) : List String :=
  (splitCharsOn (Char.ofNat 46) s.data).map String.mk

/-- `_split_compound_name` (meshtastic.py lines 781-786): split on `.`;
a single segment is duplicated so the list always has length at least 2. -/
def split_compound_name (comp_name : String) : List String :=
  let name := splitDots comp_name
  if name.length < 2 then [comp_name, comp_name] else name

/-- Python `"sep".join(parts)`. -/
def joinSep (sep : String) : List String → String
  | [] => ""
  | [x] => x
  | x :: rest => x ++ sep ++ joinSep sep rest

/-- Is `p` a prefix of `l` (character lists)? -/
def charsHavePre : List Char → List Char → Bool
  | [], _ => true
  | _ :: _, [] => false
  | p :: ps, c :: cs => p = c ∧ charsHavePre ps cs

/-- Python `s.startswith(p)`. -/
def strStartsWith (s p : String) : Bool :=
  charsHavePre p.data s.data

/-- Does `needle` occur as a contiguous substring of `haystack`
(Python `needle in haystack`)? -/
def charsContain (haystack needle : List Char) : Bool :=
  match haystack with
  | [] => charsHavePre needle []
  | _ :: rest => charsHavePre needle haystack || charsContain rest needle

/-- Python `needle in haystack` on strings. -/
def strContains (haystack needle : String) : Bool :=
  charsContain haystack.data needle.data

/-- Lexicographic order on character lists by code point, mirroring how
Python `sorted` orders strings. -/
def charsLe : List Char → List Char → Bool
  | [], _ => true
  | _ :: _, [] => false
  | a :: as_, b :: bs =>
    if a.toNat < b.toNat then true
    else if a.toNat > b.toNat then false
    else charsLe as_ bs

/-- String order used by `sorted` in `_set_pref`. -/
def strLe (a b : String) : Bool :=
  charsLe a.data b.data

/-- Insertion sort with `strLe`; mirrors Python `sorted` on short lists of
strings (both are stable). -/
def insertSorted (x : String) : List String → List String
  | [] => [x]
  | y :: ys => if strLe x y then x :: y :: ys else y :: insertSorted x ys

/-- Python `sorted` on a list of strings. -/
def sortStrings : List String → List String
  | [] => []
  | x :: xs => insertSorted x (sortStrings xs)

/-- Decimal digits of a natural number, most significant first.
`fuel` bounds the recursion so the definition stays structural. -/
def natDigits (fuel n : Nat) : List Char :=
  match fuel with
  | 0 => []
  | fuel + 1 =>
    if n < 10 then [Char.ofNat (48 + n)]
    else natDigits fuel (n / 10) ++ [Char.ofNat (48 + n % 10)]

/-- Python `str` on a non-negative integer. -/
def natToDecStr (n : Nat) : String :=
  String.mk (natDigits (n + 1) n)

/-- Python `str` on an `int` (decimal, with a leading `-` when negative). -/
def intToDecStr (n : Int) : String :=
  if n < 0 then "-" ++ natToDecStr n.natAbs else natToDecStr n.natAbs

/- ## Python literal parsing (`meshtastic.util.fromStr` and friends)

`_set_pref` converts the raw string value with the external helper
`meshtastic.util.fromStr`, which tries, in order: empty string -> empty
bytes, `0x` prefixed hex -> bytes, `base64:` prefixed -> bytes, the
true/false word sets -> bool, `int(...)` -> int, `float(...)` -> float,
otherwise the string itself. -/

/-- A Python value as produced by `meshtastic.util.fromStr`.  Float
literals are kept as written (see `valToStr` for the caveat). -/
inductive PVal where
  | pstr (s : String)
  | pint (n : Int)
  | pbool (b : Bool)
  | pbytes (bs : List Nat)
  | pfloat (lit : String)
deriving Repr, DecidableEq

/-- ASCII whitespace stripped by Python `int(...)` / `float(...)`. -/
def isSpaceChar (c : Char) : Bool :=
  c.toNat = 32 ∨ c.toNat = 9 ∨ c.toNat = 10 ∨ c.toNat = 13 ∨ c.toNat = 11 ∨ c.toNat = 12

/-- Digit value of an ASCII digit. -/
def digitVal (c : Char) : Nat := c.toNat - 48

/-- A run of decimal digits possibly separated by single underscores, as
accepted inside Python numeric literals: no leading, trailing or doubled
underscore. Returns the digits with underscores removed. -/
def digitsWithUnderscores (cs : List Char) : Option (List Char) :=
  let us := Char.ofNat 95
  let valid : Bool :=
    ¬ cs.isEmpty ∧
    cs.all (fun c => isDigitChar c ∨ c = us) ∧
    isDigitChar (cs.headD us) ∧
    isDigitChar (cs.reverse.headD us) ∧
    (cs.zip cs.tail).all (fun p => ¬ (p.1 = us ∧ p.2 = us))
  if valid then some (cs.filter (fun c => ¬ c = us)) else none

/-- Natural number denoted by a digit run. -/
def digitsToNat : List Char → Nat
  | [] => 0
  | ds => ds.foldl (fun acc d => acc * 10 + digitVal d) 0

/-- Python `int(s)`: optional surrounding whitespace, optional sign, then
decimal digits (underscore separators allowed); `none` when `int` raises. -/
def parsePyInt (s : String) : Option Int :=
  let chars := (s.data.dropWhile isSpaceChar).reverse.dropWhile isSpaceChar |>.reverse
  match chars with
  | [] => none
  | c :: rest =>
    if c = Char.ofNat 45 then
      (digitsWithUnderscores rest).map (fun ds => -(digitsToNat ds : Int))
    else if c = Char.ofNat 43 then
      (digitsWithUnderscores rest).map (fun ds => (digitsToNat ds : Int))
    else
      (digitsWithUnderscores chars).map (fun ds => (digitsToNat ds : Int))

/-- Does this character list parse as the unsigned part of a Python float
literal: `digits [. digits?] | . digits`, optionally followed by an
exponent `e|E [sign] digits`? -/
def floatBody (chars : List Char) : Bool :=
  let splitE := splitCharsOn (Char.ofNat 101) (chars.map charLower)
  let mantOk : List Char → Bool := fun m =>
    let parts := splitCharsOn (Char.ofNat 46) m
    match parts with
    | [whole] => (digitsWithUnderscores whole).isSome
    | [whole, frac] =>
      ((digitsWithUnderscores whole).isSome ∨ whole = []) ∧
      ((digitsWithUnderscores frac).isSome ∨ frac = []) ∧
      ¬ (whole = [] ∧ frac = [])
    | _ => false
  let expOk : List Char → Bool := fun e =>
    match e with
    | c :: rest =>
      if c = Char.ofNat 43 ∨ c = Char.ofNat 45 then (digitsWithUnderscores rest).isSome
      else (digitsWithUnderscores e).isSome
    | [] => false
  match splitE with
  | [m] => mantOk m
  | [m, e] => mantOk m ∧ expOk e
  | _ => false

/-- Python `float(s)` succeeds: optional whitespace and sign, then a float
body or one of the special words `inf`, `infinity`, `nan`. -/
def isPyFloat (s : String) : Bool :=
  let chars := (s.data.dropWhile isSpaceChar).reverse.dropWhile isSpaceChar |>.reverse
  let body :=
    match chars with
    | c :: rest =>
      if c = Char.ofNat 43 ∨ c = Char.ofNat 45 then rest else chars
    | [] => []
  let low := String.mk (body.map charLower)
  low = "inf" ∨ low = "infinity" ∨ low = "nan" ∨ floatBody body

/-- Value of one hex digit, if any. -/
def hexDigitVal (c : Char) : Option Nat :=
  if isDigitChar c then some (c.toNat - 48)
  else if 97 ≤ c.toNat ∧ c.toNat ≤ 102 then some (c.toNat - 87)
  else if 65 ≤ c.toNat ∧ c.toNat ≤ 70 then some (c.toNat - 55)
  else none

/-- Python `bytes.fromhex`: pairs of hex digits, ASCII spaces ignored;
`none` when it raises `ValueError`. -/
def hexDecode (chars : List Char) : Option (List Nat) :=
  match chars with
  | [] => some []
  | c :: rest =>
    if c = Char.ofNat 32 then hexDecode rest
    else
      match hexDigitVal c, rest with
      | some hi, c2 :: rest2 =>
        match hexDigitVal c2, hexDecode rest2 with
        | some lo, some bs => some ((hi * 16 + lo) :: bs)
        | _, _ => none
      | _, _ => none

/-- The base64 alphabet value of a character, if any. -/
def b64Val (c : Char) : Option Nat :=
  if 65 ≤ c.toNat ∧ c.toNat ≤ 90 then some (c.toNat - 65)
  else if 97 ≤ c.toNat ∧ c.toNat ≤ 122 then some (c.toNat - 71)
  else if isDigitChar c then some (c.toNat + 4)
  else if c = Char.ofNat 43 then some 62
  else if c = Char.ofNat 47 then some 63
  else none

/-- Decode base64 quartets (padding already stripped to a 6-bit list plus
the number of padding characters). -/
def b64Quartets : List Nat → Nat → Option (List Nat)
  | [a, b], 2 => some [(a * 4 + b / 16) % 256]
  | [a, b, c], 1 => some [(a * 4 + b / 16) % 256, (b * 16 + c / 4) % 256]
  | a :: b :: c :: d :: rest, pad =>
    match b64Quartets rest pad with
    | some bs => some ((a * 4 + b / 16) % 256 :: (b * 16 + c / 4) % 256 :: (c * 64 + d) % 256 :: bs)
    | none =>
      match rest, pad with
      | [], 0 => some [(a * 4 + b / 16) % 256, (b * 16 + c / 4) % 256, (c * 64 + d) % 256]
      | _, _ => none
  | [], 0 => some []
  | _, _ => none

/-- Python `base64.b64decode` (approximating its lenient handling of
malformed input by rejecting it): alphabet characters in quartets with
`=` padding only at the very end; `none` when it raises. -/
def b64decode (chars : List Char) : Option (List Nat) :=
  let pad := (chars.reverse.takeWhile (fun c => c = Char.ofNat 61)).length
  let body := chars.reverse.dropWhile (fun c => c = Char.ofNat 61) |>.reverse
  if pad > 2 then none
  else
    match body.mapM b64Val with
    | some vals => if (vals.length + pad) % 4 = 0 then b64Quartets vals pad else none
    | none => none

/-- `meshtastic.util.fromStr` (external helper used by `_set_pref`);
`Py.exc` marks the inputs on which the Python original raises. -/
def fromStr (s : String) : Py PVal :=
  if s.data.isEmpty then .ok (.pbytes [])
  else if strStartsWith s "0x" then
    match hexDecode (s.data.drop 2) with
    | some bs => .ok (.pbytes bs)
    | none => .exc "ValueError"
  else if strStartsWith s "base64:" then
    match b64decode (s.data.drop 7) with
    | some bs => .ok (.pbytes bs)
    | none => .exc "binascii.Error"
  else if strLower s = "t" ∨ strLower s = "true" ∨ strLower s = "yes" then .ok (.pbool true)
  else if strLower s = "f" ∨ strLower s = "false" ∨ strLower s = "no" then .ok (.pbool false)
  else
    match parsePyInt s with
    | some n => .ok (.pint n)
    | none => if isPyFloat s then .ok (.pfloat s) else .ok (.pstr s)

/- ## Protobuf descriptor and message model

`_set_pref` / `_get_pref_value` resolve dotted paths against protobuf
descriptors (`DESCRIPTOR.fields_by_name`, `field.message_type`,
`field.enum_type`, `field.label`) and read and write messages through
`getattr` / `setattr`.  A descriptor is a list of named fields, a message
object an association list of its present fields; `getattr` of an absent
field yields the protobuf default. -/

/-- Declared type of one protobuf field.  `fint lo hi` is an integral
scalar with its representable range (the Python runtime raises on
assignment outside it); `fenum` carries `values_by_name` as a
name-to-number list; `fmsg` is a nested message type whose entries are
`(name, type, is_repeated)`. -/
inductive FType where
  | fint (lo hi : Int)
  | fbool
  | fstr
  | fbytes
  | ffloat
  | fenum (values : List (String × Int))
  | fmsg (fields : List (String × FType × Bool))
deriving Repr

/-- One descriptor entry: field name, declared type, `LABEL_REPEATED`. -/
abbrev FieldD := String × FType × Bool

/-- A stored protobuf value. -/
inductive Val where
  | vint (n : Int)
  | vbool (b : Bool)
  | vstr (s : String)
  | vbytes (bs : List Nat)
  | vfloat (lit : String)
  | vlist (vs : List Val)
  | vmsg (fields : List (String × Val))
deriving Repr

/-- A message object: association list of its present fields. -/
abbrev Cfg := List (String × Val)

/-- `fields_by_name.get(name)` on a descriptor. -/
def findField (fields : List FieldD) (nm : String) : Option FieldD :=
  fields.find? (fun f => f.1 = nm)

/-- Look up a present field of a message object. -/
def lookupA (fields : Cfg) (nm : String) : Option Val :=
  (fields.find? (fun f => f.1 = nm)).map Prod.snd

/-- Replace (or insert) a field of a message object, keeping first-set
order as protobuf presence tracking does. -/
def assocSet (fields : Cfg) (nm : String) (v : Val) : Cfg :=
  match fields with
  | [] => [(nm, v)]
  | (k, w) :: rest => if k = nm then (nm, v) :: rest else (k, w) :: assocSet rest nm v

/-- The protobuf default read by `getattr` when a field is not present. -/
def defaultVal (t : FType) (repeated : Bool) : Val :=
  if repeated then .vlist []
  else
    match t with
    | .fint _ _ => .vint 0
    | .fbool => .vbool false
    | .fstr => .vstr ""
    | .fbytes => .vbytes []
    | .ffloat => .vfloat "0.0"
    | .fenum _ => .vint 0
    | .fmsg _ => .vmsg []

/-- `getattr(msg, field.name)` with the descriptor-driven default. -/
def getattrF (fields : Cfg) (fd : FieldD) : Val :=
  (lookupA fields fd.1).getD (defaultVal fd.2.1 fd.2.2)

/-- Is the declared type a message type (`field.message_type is not None`)? -/
def FType.isMsg : FType → Bool
  | .fmsg _ => true
  | _ => false

/-- Rewrite the message object reached from the root by following the
attribute names in `path` (each step reads a message-typed field, a step
through an absent field materialises it, as mutating the child object
returned by protobuf `getattr` does). -/
def updateCfgAt (cfg : Cfg) (path : List String) (f : Cfg → Cfg) : Cfg :=
  match path with
  | [] => f cfg
  | k :: ks =>
    match lookupA cfg k with
    | some (.vmsg fs) => assocSet cfg k (.vmsg (updateCfgAt fs ks f))
    | some _ => cfg
    | none => assocSet cfg k (.vmsg (updateCfgAt [] ks f))

/- ## Schema resolution walk

Lines 790-806 of `_set_pref` and lines 831-847 of `_get_pref_value` are
the same walk, duplicated verbatim in the Python; it is embedded once.
The walk returns the final `config_part` (with its descriptor and its
attribute path from the root) and the final `config_type`. -/

/-- The intermediate-segment loop (`for name_part in name[1:-1]`).
`Py.exc` marks the states in which the Python loop body raises
(`config_type` became `None` or a non-message, or the stored value is not
a message object). -/
def walkMids (mids : List String) (part : Cfg) (pdesc : List FieldD)
    (path : List String) (ct : Option FieldD) :
    Py (Cfg × List FieldD × List String × Option FieldD) :=
  match mids with
  | [] => .ok (part, pdesc, path, ct)
  | m :: rest =>
    match ct with
    | none => .exc "AttributeError"
    | some (fname, ftyp, frep) =>
      match ftyp with
      | .fmsg mfs =>
        match getattrF part (fname, ftyp, frep) with
        | .vmsg fs => walkMids rest fs mfs (path ++ [fname]) (findField mfs (camel_to_snake m))
        | _ => .exc "AttributeError"
      | _ => .exc "AttributeError"

/-- The shared resolution walk over a split compound name: look the first
segment up in the root descriptor and, when it names a message-typed
field, run the intermediate-segment loop. -/
def resolveWalk (desc : List FieldD) (config : Cfg) (nameParts : List String) :
    Py (Cfg × List FieldD × List String × Option FieldD) :=
  match findField desc (nameParts.headD "") with
  | some fd =>
    if fd.2.1.isMsg then
      walkMids (nameParts.drop 1).dropLast config desc [] (some fd)
    else .ok (config, desc, [], some fd)
  | none => .ok (config, desc, [], none)

/-- The final `pref` lookup shared by `_set_pref` and `_get_pref_value`:
within a message-typed `config_type` the snake-cased last segment is
looked up, otherwise `config_type` itself is the preference field. -/
def prefOf (ct : Option FieldD) (snake_name : String) : Option FieldD :=
  match ct with
  | some (_, .fmsg mfs, _) => findField mfs snake_name
  | some fd => some fd
  | none => none

/-- Protobuf `setattr` type enforcement for one scalar value; `Py.exc`
marks the combinations on which the Python runtime raises. -/
def checkVal (t : FType) (v : PVal) : Py Val :=
  match t, v with
  | .fint lo hi, .pint n => if lo ≤ n ∧ n ≤ hi then .ok (.vint n) else .exc "ValueError"
  | .fint lo hi, .pbool b =>
    let n : Int := if b then 1 else 0
    if lo ≤ n ∧ n ≤ hi then .ok (.vint n) else .exc "ValueError"
  | .fbool, .pbool b => .ok (.vbool b)
  | .fbool, .pint n => .ok (.vbool (¬ n = 0))
  | .fenum evs, .pint n =>
    if (evs.map Prod.snd).contains n then .ok (.vint n) else .exc "ValueError"
  | .fenum evs, .pbool b =>
    let n : Int := if b then 1 else 0
    if (evs.map Prod.snd).contains n then .ok (.vint n) else .exc "ValueError"
  | .fstr, .pstr s => .ok (.vstr s)
  | .fbytes, .pbytes bs => .ok (.vbytes bs)
  | .ffloat, .pint n => .ok (.vfloat (intToDecStr n ++ ".0"))
  | .ffloat, .pbool b => .ok (.vfloat (if b then "1.0" else "0.0"))
  | .ffloat, .pfloat lit => .ok (.vfloat lit)
  | _, _ => .exc "TypeError"

/-- The sorted, comma-joined enum constant list used in the `_set_pref`
error message (`", ".join(sorted(enum_type.values_by_name.keys()))`). -/
def enumChoices (evs : List (String × Int)) : String :=
  joinSep ", " (sortStrings (evs.map Prod.fst))

/-- `enum_type.values_by_name.get(val)`. -/
def enumByName (evs : List (String × Int)) (s : String) : Option Int :=
  ((evs.find? (fun e => e.1 = s))).map Prod.snd

/-- The assignment tail of `_set_pref` (lines 819-827): a non-repeated
preference is written through `setattr` (into `config_values` when the
section is message-typed), a repeated one is looked up as an attribute of
`config_part` itself and appended to. -/
def setPrefWrite (config part : Cfg) (pdesc : List FieldD) (path : List String)
    (cfd p : FieldD) (v : PVal) : Py (Option String × Cfg) :=
  if p.2.2 = false then
    match checkVal p.2.1 v with
    | .exc e => .exc e
    | .ok v1 =>
      match cfd.2.1 with
      | .fmsg _ =>
        .ok (none, updateCfgAt config (path ++ [cfd.1]) (fun fs => assocSet fs p.1 v1))
      | _ =>
        .ok (none, updateCfgAt config path (fun fs => assocSet fs p.1 v1))
  else
    match findField pdesc p.1 with
    | none => .exc "AttributeError"
    | some fd2 =>
      if fd2.2.2 = false then .exc "AttributeError"
      else
        match checkVal fd2.2.1 v with
        | .exc e => .exc e
        | .ok v1 =>
          let old : List Val :=
            match getattrF part fd2 with
            | .vlist vs => vs
            | _ => []
          .ok (none, updateCfgAt config path
            (fun fs => assocSet fs fd2.1 (.vlist (old ++ [v1]))))

/-- The enum-mapping step of `_set_pref` (lines 811-818): a string value
on an enumerated field is replaced by its integer constant and passed on
to the continuation `k` (the assignment tail), an unmatched name produces
the error message listing the legal constants; every other value passes
through to `k` unchanged. -/
def enumStep (comp_name : String) (config : Cfg) (t : FType) (v : PVal)
    (k : PVal → Py (Option String × Cfg)) : Py (Option String × Cfg) :=
  match t, v with
  | .fenum evs, .pstr s =>
    (match enumByName evs s with
     | some n => k (.pint n)
     | none =>
       .ok (some (comp_name ++ " enum must be one of: " ++ enumChoices evs), config))
  | _, _ => k v

/-- `_set_pref(config, comp_name, raw_val)` (meshtastic.py lines 789-827)
over the message object `config` with descriptor `desc`.  Returns the
Python pair `(ok, error)` collapsed to `Option String` (an error message,
`none` on success) together with the updated message object. -/
def set_pref (desc : List FieldD) (config : Cfg) (comp_name raw_val : String) :
    Py (Option String × Cfg) :=
  let nameParts := split_compound_name comp_name
  let snake_name := camel_to_snake (nameParts.reverse.headD "")
  match resolveWalk desc config nameParts with
  | .exc e => .exc e
  | .ok (part, pdesc, path, ct) =>
    match prefOf ct snake_name, ct with
    | some p, some cfd =>
      (match fromStr raw_val with
       | .exc e => .exc e
       | .ok v0 => enumStep comp_name config p.2.1 v0 (setPrefWrite config part pdesc path cfd p))
    | _, _ => .ok (some (comp_name ++ " not found."), config)

/-- Role of a channel slot (`channel_pb2.Channel.Role`). -/
inductive Role where
  | PRIMARY
  | SECONDARY
  | DISABLED
deriving Repr, DecidableEq

/-- The channel settings fields this repository touches
(`channel_pb2.ChannelSettings`; remaining fields behave like `name`). -/
structure ChannelSettings where
  psk : List Nat
  name : String
deriving Repr, DecidableEq

/-- One channel slot. -/
structure Channel where
  index : Nat
  role : Role
  settings : ChannelSettings
deriving Repr, DecidableEq

/-- A call the node makes against the device. -/
inductive DevEvent where
  | requestConfig (sec : String)
  | beginTransaction
  | commitTransaction
  | writeConfig (sec : String)
  | writeChannel (i : Nat)
deriving Repr, DecidableEq

/-- The cached device state held by `interface.localNode`. -/
structure Node where
  localDesc : List FieldD
  moduleDesc : List FieldD
  localConfig : Cfg
  moduleConfig : Cfg
  channels : List Channel
deriving Repr

/-- Which of the two cached trees a section lives in. -/
inductive CfgSide where
  | localSide
  | moduleSide
deriving Repr, DecidableEq

/-- `_select_config(node, section)` (meshtastic.py lines 860-865). -/
def select_config (node : Node) (sec : String) : Option CfgSide :=
  if (findField node.localDesc sec).isSome then some .localSide
  else if (findField node.moduleDesc sec).isSome then some .moduleSide
  else none

/-- Descriptor of the selected tree. -/
def sideDesc (node : Node) : CfgSide → List FieldD
  | .localSide => node.localDesc
  | .moduleSide => node.moduleDesc

/-- Message object of the selected tree. -/
def sideCfg (node : Node) : CfgSide → Cfg
  | .localSide => node.localConfig
  | .moduleSide => node.moduleConfig

/-- Store an updated message object back into the node. -/
def setSideCfg (node : Node) (side : CfgSide) (cfg : Cfg) : Node :=
  match side with
  | .localSide => { node with localConfig := cfg }
  | .moduleSide => { node with moduleConfig := cfg }

/-- `_ensure_config_loaded(node, section)` (meshtastic.py lines 868-875):
when the selected tree has no present field at all, the section is
requested from the device (`node.requestConfig`; the asynchronous
population of the cache by the response is part of the external library
and is recorded only as the request event). -/
def ensure_config_loaded (node : Node) (sec : String) : List DevEvent :=
  match select_config node sec with
  | none => []
  | some side =>
    if (sideCfg node side).length = 0 then
      if (findField (sideDesc node side) sec).isSome then [.requestConfig sec] else []
    else []

/-- Python `field.split(".", 1)[0]`: the text before the first dot. -/
def firstSegment (field : String) : String :=
  (splitDots field).headD ""

/-- The per-update loop of `_apply_preferences` (lines 881-892): resolve
the section, lazily load it, set the preference, and record the distinct
sections in first-touched order.  Returns either the early-error result
or the final section list, in both cases with the node and the events so
far (updates already applied stay applied). -/
def applyLoop (node : Node) (secs : List String) (evs : List DevEvent) :
    List (String × String) → Py ((Option MeshtasticResult × List String) × Node × List DevEvent)
  | [] => .ok ((none, secs), node, evs)
  | (field, value) :: rest =>
    let sec := firstSegment field
    match select_config node sec with
    | none =>
      .ok ((some ⟨1, "Unknown preference section: " ++ sec⟩, secs), node, evs)
    | some side =>
      let evs := evs ++ ensure_config_loaded node sec
      match set_pref (sideDesc node side) (sideCfg node side) field value with
      | .exc e => .exc e
      | .ok (err, cfg2) =>
        let node := setSideCfg node side cfg2
        match err with
        | some e =>
          .ok ((some ⟨1, if e = "" then "Invalid preference." else e⟩, secs), node, evs)
        | none =>
          let secs := if secs.contains sec then secs else secs ++ [sec]
          applyLoop node secs evs rest

/-- `_apply_preferences(node, updates)` (meshtastic.py lines 878-899). -/
def apply_preferences (node : Node) (updates : List (String × String)) :
    Py (MeshtasticResult × Node × List DevEvent) :=
  if updates.isEmpty then .ok (⟨1, "No preferences provided."⟩, node, [])
  else
    match applyLoop node [] [] updates with
    | .exc e => .exc e
    | .ok ((some res, _), node2, evs) => .ok (res, node2, evs)
    | .ok ((none, secs), node2, evs) =>
      let txn := secs.length > 1
      let evs := evs ++ (if txn then [DevEvent.beginTransaction] else [])
        ++ secs.map DevEvent.writeConfig
        ++ (if txn then [DevEvent.commitTransaction] else [])
      .ok (⟨0, "Preferences updated."⟩, node2, evs)

/-- The closure body of `set_preference(field, value)` (meshtastic.py
lines 1262-1264); the surrounding Action Executor passes a returned
result through unchanged. -/
def set_preference_build (node : Node) (field value : String) :
    Py (MeshtasticResult × Node × List DevEvent) :=
  apply_preferences node [(field, value)]

/-- Is this event a section write or a transaction call (as opposed to a
config read request)? -/
def isWriteEvent : DevEvent → Bool
  | .requestConfig _ => false
  | _ => true

/-- The distinct first path segments of an update list, in first-touched
order (the statement vocabulary for the claims about section grouping). -/
def distinctSections (updates : List (String × String)) : List String :=
  updates.foldl
    (fun acc u => if acc.contains (firstSegment u.1) then acc else acc ++ [firstSegment u.1]) []

/- ## Channel store -/

/-- `node.getChannelByName(name)` (external meshtastic library): the
first channel whose settings carry the given name.  The library guards
with `if c.settings and ...`, but `c.settings` is a protobuf sub-message
and therefore always truthy, so the effective check is name equality
alone — a default-settings Disabled slot (name `""`) is matched too. -/
def getChannelByName (node : Node) (nm : String) : Option Channel :=
  node.channels.find? (fun c => c.settings.name = nm)

/-- `node.getDisabledChannel()` (external meshtastic library): the first
channel slot with role `DISABLED`. -/
def getDisabledChannel (node : Node) : Option Channel :=
  node.channels.find? (fun c => c.role = Role.DISABLED)

/-- Replace the first `DISABLED` slot by the given channel. -/
def replaceFirstDisabled (chans : List Channel) (c : Channel) : List Channel :=
  match chans with
  | [] => []
  | ch :: rest =>
    if ch.role = Role.DISABLED then c :: rest
    else ch :: replaceFirstDisabled rest c

/-- The closure body of `channel_add(name)` (meshtastic.py lines
1302-1317).  `genPSK` is the value returned by the external random key
generator `meshtastic.util.genPSK256()`. -/
def channel_add_build (node : Node) (nm : String) (genPSK : List Nat) :
    MeshtasticResult × Node × List DevEvent :=
  if nm.length > 10 then
    (⟨1, "Channel name must be shorter than 10 characters."⟩, node, [])
  else
    match getChannelByName node nm with
    | some _ =>
      let q := String.mk [Char.ofNat 39]
      (⟨1, "Channel " ++ q ++ nm ++ q ++ " already exists."⟩, node, [])
    | none =>
      match getDisabledChannel node with
      | none => (⟨1, "No free channels were found."⟩, node, [])
      | some ch =>
        let ch2 : Channel :=
          { index := ch.index, role := Role.SECONDARY, settings := ⟨genPSK, nm⟩ }
        ({ returncode := 0, stdout := "Channel added." },
         { node with channels := replaceFirstDisabled node.channels ch2 },
         [DevEvent.writeChannel ch.index])

/-- `channel_delete(index)` (meshtastic.py lines 1326-1339): the index-0
guard runs before anything else; for any other index the work happens
inside the Action Executor, represented here by the `rest` continuation. -/
def channel_delete (index : Int) (rest : MeshtasticResult × List DevEvent) :
    MeshtasticResult × List DevEvent :=
  if index = 0 then (⟨1, "Cannot delete primary channel."⟩, []) else rest

/-- `channel_enable(index)` (meshtastic.py lines 1342-1359): index-0
guard before anything else. -/
def channel_enable (index : Int) (rest : MeshtasticResult × List DevEvent) :
    MeshtasticResult × List DevEvent :=
  if index = 0 then (⟨1, "Cannot enable primary channel."⟩, []) else rest

/-- `channel_disable(index)` (meshtastic.py lines 1362-1379): index-0
guard before anything else. -/
def channel_disable (index : Int) (rest : MeshtasticResult × List DevEvent) :
    MeshtasticResult × List DevEvent :=
  if index = 0 then (⟨1, "Cannot disable primary channel."⟩, []) else rest

/- ## Session manager and action executor

The transport is a collaborator: connections are identified by numbers,
and the environment prescribes the outcome of each `_connect_meshtastic`
call (its internal attempt loop included), whether the ready-handshake
(`waitForConfig`) succeeds on a given connection, and the outcome of each
run of the caller's action.  Connection-level activity is recorded as
events. -/

/-- `MeshtasticSession` state: the cached interface (`_interface`) and
the handshake flag (`_config_loaded`). -/
structure SessionState where
  interface : Option Nat
  configLoaded : Bool
deriving Repr, DecidableEq

/-- Connection-level events. -/
inductive ConnEvent where
  | close (id : Nat)
  | connect (result : Option Nat)
  | waitConfig (id : Nat)
  | runAction (attempt : Nat)
deriving Repr, DecidableEq

/-- Outcomes supplied by the external world: `conn k` is the result of
the `k`-th `_connect_meshtastic` call, `waitOk id` whether the
ready-handshake succeeds on connection `id`, and `runAct attempt id` the
outcome of running the caller's action on connection `id` for the given
attempt (0 = first run, 1 = the retry). -/
structure ExecEnv where
  conn : Nat → Except MeshtasticResult Nat
  waitOk : Nat → Bool
  runAct : Nat → Nat → Py MeshtasticResult

/-- `MESHTASTIC_TIMEOUT_SEC` defaults to 60; the timeout result built at
meshtastic.py lines 605-611. -/
def timeoutResult : MeshtasticResult :=
  ⟨124, "Meshtastic command timed out after 60s."⟩

/-- `MeshtasticSession.close` (lines 614-630): drop the cached interface
and handshake flag; the actual teardown is external and recorded as an
event. -/
def sessionClose (st : SessionState) : SessionState × List ConnEvent :=
  match st.interface with
  | none => (⟨none, false⟩, [])
  | some id => (⟨none, false⟩, [.close id])

/-- The ready-handshake tail of `get_interface` (lines 599-612): when
`wait_for_config` is requested and the handshake has not yet run on the
current connection, run it; on failure the session is closed and the
timeout result returned. -/
def waitStep (env : ExecEnv) (st : SessionState) (wait_for_config : Bool) (id : Nat) :
    (Option MeshtasticResult × Option Nat) × SessionState × List ConnEvent :=
  if wait_for_config ∧ st.configLoaded = false then
    if env.waitOk id then ((none, some id), ⟨some id, true⟩, [.waitConfig id])
    else ((some timeoutResult, none), ⟨none, false⟩, [.waitConfig id, .close id])
  else ((none, some id), st, [])

/-- The connect-if-needed part of `get_interface` (lines 592-612), run
after the optional reconnect close: reuse the cached connection when one
is present, otherwise connect (a fresh connection starts with
`_config_loaded = False`), then run the handshake tail.  `evs0` carries
the events of the optional close. -/
def getInterfaceConn (env : ExecEnv) (cur : Nat) (st1 : SessionState)
    (evs0 : List ConnEvent) (wait_for_config : Bool) :
    (Option MeshtasticResult × Option Nat) × SessionState × Nat × List ConnEvent :=
  match st1.interface with
  | some id =>
    let stepped := waitStep env st1 wait_for_config id
    (stepped.1, stepped.2.1, cur, evs0 ++ stepped.2.2)
  | none =>
    match env.conn cur with
    | .error e => ((some e, none), st1, cur + 1, evs0 ++ [.connect none])
    | .ok id =>
      let stepped := waitStep env ⟨some id, false⟩ wait_for_config id
      (stepped.1, stepped.2.1, cur + 1, evs0 ++ [.connect (some id)] ++ stepped.2.2)

/-- `MeshtasticSession.get_interface` (meshtastic.py lines 583-612).
`cur` indexes the environment's connect outcomes; the returned value is
the Python pair `(error, interface)` together with the new session state,
the new cursor and the events. -/
def get_interface (env : ExecEnv) (cur : Nat) (st : SessionState)
    (wait_for_config reconnect : Bool) :
    (Option MeshtasticResult × Option Nat) × SessionState × Nat × List ConnEvent :=
  let closed := if reconnect then sessionClose st else (st, [])
  getInterfaceConn env cur closed.1 closed.2 wait_for_config

/-- `_run_meshtastic_action(action, wait_for_config, session)`
(meshtastic.py lines 701-729).  With no session, a one-shot connection is
made and closed in the `finally` block; with a session, its interface is
used.  The returned triple is the result, the session state afterwards
(`none` when no session was supplied) and the events. -/
def run_meshtastic_action (env : ExecEnv) (cur : Nat) (wait_for_config : Bool) :
    Option SessionState → MeshtasticResult × Option SessionState × List ConnEvent
  | none =>
    (match env.conn cur with
     | .error e => (e, none, [.connect none])
     | .ok id =>
       match env.runAct 0 id with
       | .ok r => (r, none, [.connect (some id), .runAction 0, .close id])
       | .exc e =>
         (⟨1, "Meshtastic command failed: " ++ e⟩, none,
          [.connect (some id), .runAction 0, .close id]))
  | some st =>
    match get_interface env cur st wait_for_config false with
    | ((some e, _), st2, _, evs) => (e, some st2, evs)
    | ((none, none), st2, _, evs) =>
      (⟨1, "Unable to connect to Meshtastic."⟩, some st2, evs)
    | ((none, some id), st2, cur2, evs) =>
      match env.runAct 0 id with
      | .ok r => (r, some st2, evs ++ [.runAction 0])
      | .exc _ =>
        match get_interface env cur2 st2 wait_for_config true with
        | ((some e2, _), st3, _, evs2) => (e2, some st3, evs ++ [.runAction 0] ++ evs2)
        | ((none, none), st3, _, evs2) =>
          (⟨1, "Unable to connect to Meshtastic."⟩, some st3, evs ++ [.runAction 0] ++ evs2)
        | ((none, some id2), st3, _, evs2) =>
          match env.runAct 1 id2 with
          | .ok r => (r, some st3, evs ++ [.runAction 0] ++ evs2 ++ [.runAction 1])
          | .exc e2 =>
            (⟨1, "Meshtastic command failed: " ++ e2⟩, some st3,
             evs ++ [.runAction 0] ++ evs2 ++ [.runAction 1])

/-- Modelled from the spec: the Error Classifier, which "categorizes a
transport failure into Timeout / ConnectionLost / Generic from its
signal".  The Timeout marker is the one the repository itself uses
(`"timed out" in message`, meshtastic.py line 666); the repository
contains no ConnectionLost markers, so those are taken from the spec's
wording about dropped transports. -/
inductive FailureClass where
  | Timeout
  | ConnectionLost
  | Generic
deriving Repr, DecidableEq

/-- Modelled from the spec: classify a failure message. -/
def classify (msg : String) : FailureClass :=
  let low := strLower msg
  if strContains low "timed out" then .Timeout
  else if strContains low "connection reset" ∨ strContains low "connection refused" ∨
      strContains low "broken pipe" ∨ strContains low "connection lost" then
    .ConnectionLost
  else .Generic

/-- How many times the caller's action was run in an event trace. -/
def countActionRuns (evs : List ConnEvent) : Nat :=
  (evs.filter (fun e => match e with | .runAction _ => true | _ => false)).length

/-- Does the trace contain a handshake event? -/
def hasWaitEvent (evs : List ConnEvent) : Bool :=
  evs.any (fun e => match e with | .waitConfig _ => true | _ => false)

/-- Does the trace contain a connect event? -/
def hasConnectEvent (evs : List ConnEvent) : Bool :=
  evs.any (fun e => match e with | .connect _ => true | _ => false)

/- ## Concrete fixtures

A small but representative schema for the concrete scenarios: a `lora`
section with the enumerated `region` field of spec Scenario A, a `power`
and a `security` local section, and an `mqtt` module section. -/

/-- Fields of the `lora` section. -/
def loraFields : List FieldD :=
  [("region", .fenum [("UNSET", 0), ("US", 1), ("EU_868", 2)], false),
   ("hop_limit", .fint 0 4294967295, false),
   ("use_preset", .fbool, false)]

/-- Fields of the `power` section. -/
def powerFields : List FieldD :=
  [("is_power_saving", .fbool, false), ("ls_secs", .fint 0 4294967295, false)]

/-- Fields of the `security` section. -/
def securityFields : List FieldD :=
  [("admin_key", .fbytes, true), ("is_managed", .fbool, false)]

/-- Fields of the `mqtt` module section. -/
def mqttFields : List FieldD :=
  [("enabled", .fbool, false), ("address", .fstr, false)]

/-- The local (`Config`) descriptor of the fixture. -/
def testLocalDesc : List FieldD :=
  [("lora", .fmsg loraFields, false),
   ("power", .fmsg powerFields, false),
   ("security", .fmsg securityFields, false)]

/-- The module (`ModuleConfig`) descriptor of the fixture. -/
def testModuleDesc : List FieldD :=
  [("mqtt", .fmsg mqttFields, false)]

/-- Channel slots as in spec Scenario B: slot 0 Primary, the rest
Disabled. -/
def testChannels : List Channel :=
  [⟨0, .PRIMARY, ⟨[1, 2, 3], "mesh-primary"⟩⟩,
   ⟨1, .DISABLED, ⟨[], ""⟩⟩,
   ⟨2, .DISABLED, ⟨[], ""⟩⟩]

/-- The fixture node, with both trees still unloaded. -/
def testNode : Node :=
  ⟨testLocalDesc, testModuleDesc, [], [], testChannels⟩

/- ## Claims -/

/-- C10 counterexample: `apply([])` does fail with returncode 1 and
issues no device calls, but the message the code produces is
"No preferences provided.", not the claimed "no updates provided". -/
theorem c10_empty_message_counterexample :
    apply_preferences testNode [] = .ok (⟨1, "No preferences provided."⟩, testNode, []) ∧
    ¬ ("No preferences provided." = "no updates provided") := by
  exact ⟨rfl, by decide⟩

/-- C10 (amended): `apply([])` on an empty update list fails with
returncode 1 and the message "No preferences provided.", and no device
interaction occurs: the event trace is empty, so zero section writes and
zero transaction calls are issued. -/
theorem c10_empty_updates_rejected (node : Node) :
    apply_preferences node [] = .ok (⟨1, "No preferences provided."⟩, node, []) := rfl

/-- C9 counterexample: `setPreference("bogus.field", "x")` fails, but
the message is "Unknown preference section: bogus", which does not
contain the claimed full path "bogus.field". -/
theorem c9_unknown_section_counterexample :
    set_preference_build testNode "bogus.field" "x" =
      .ok (⟨1, "Unknown preference section: bogus"⟩, testNode, []) ∧
    strContains "Unknown preference section: bogus" "bogus.field" = false := by
  exact ⟨rfl, by decide⟩

/-- C9 (amended): for every dotted path whose first segment is not a
known configuration section, `setPreference` fails with returncode 1 and
the error message names the offending section (the first path segment),
not the full dotted path, and no device interaction occurs. -/
theorem c9_unknown_section_named (node : Node) (field value : String)
    (h : select_config node (firstSegment field) = none) :
    set_preference_build node field value =
      .ok (⟨1, "Unknown preference section: " ++ firstSegment field⟩, node, []) := by
  simp only [set_preference_build, apply_preferences, List.isEmpty_cons, Bool.false_eq_true,
    if_false, applyLoop, h]

/-- C9 witness: the amended theorem applied at the concrete scenario of
the spec. -/
theorem c9_unknown_section_named_witness :
    set_preference_build testNode "bogus.field" "x" =
      .ok (⟨1, "Unknown preference section: bogus"⟩, testNode, []) :=
  c9_unknown_section_named testNode "bogus.field" "x" rfl

/-- C6: `deleteChannel(0)`, `enableChannel(0)` and `disableChannel(0)`
fail with the respective conflict result in every state (whatever the
executor would have produced), and no device call is issued: channel 0
can never be deleted, disabled, or re-enabled through the generic
channel API. -/
theorem c6_channel_zero_protected
    (rest1 rest2 rest3 : MeshtasticResult × List DevEvent) :
    channel_delete 0 rest1 = (⟨1, "Cannot delete primary channel."⟩, []) ∧
    channel_enable 0 rest2 = (⟨1, "Cannot enable primary channel."⟩, []) ∧
    channel_disable 0 rest3 = (⟨1, "Cannot disable primary channel."⟩, []) :=
  ⟨rfl, rfl, rfl⟩

/-- Fixture: a node whose slot 1 already carries a Secondary channel
named "alerts" (the state after Scenario B's first `addChannel`). -/
def testNodeDup : Node :=
  { testNode with channels :=
    [⟨0, .PRIMARY, ⟨[1, 2, 3], "mesh-primary"⟩⟩,
     ⟨1, .SECONDARY, ⟨[9, 9], "alerts"⟩⟩,
     ⟨2, .DISABLED, ⟨[], ""⟩⟩] }

/-- Fixture: a node with no Disabled slot left. -/
def testNodeFull : Node :=
  { testNode with channels :=
    [⟨0, .PRIMARY, ⟨[1, 2, 3], "mesh-primary"⟩⟩,
     ⟨1, .SECONDARY, ⟨[9, 9], "alerts"⟩⟩] }

/-- C5: `addChannel(name)` fails with the invalid-name result for every
name longer than 10 characters; fails with a conflict for a name an
existing channel already bears; fails with a
conflict when no Disabled slot is available; and otherwise succeeds,
replacing the first Disabled slot's settings by the freshly generated
preshared key `gen` and the given name, setting its role to Secondary,
and issuing exactly one write of that slot. -/
theorem c5_channel_add (node : Node) (nm : String) (gen : List Nat) :
    (nm.length > 10 →
      channel_add_build node nm gen =
        (⟨1, "Channel name must be shorter than 10 characters."⟩, node, [])) ∧
    (∀ c, ¬ nm.length > 10 → getChannelByName node nm = some c →
      channel_add_build node nm gen =
        (⟨1, "Channel " ++ String.mk [Char.ofNat 39] ++ nm ++ String.mk [Char.ofNat 39] ++
          " already exists."⟩, node, [])) ∧
    (¬ nm.length > 10 → getChannelByName node nm = none → getDisabledChannel node = none →
      channel_add_build node nm gen = (⟨1, "No free channels were found."⟩, node, [])) ∧
    (∀ ch, ¬ nm.length > 10 → getChannelByName node nm = none →
      getDisabledChannel node = some ch →
      channel_add_build node nm gen =
        (⟨0, "Channel added."⟩,
         { node with channels :=
            replaceFirstDisabled node.channels ⟨ch.index, .SECONDARY, ⟨gen, nm⟩⟩ },
         [DevEvent.writeChannel ch.index])) := by
  refine ⟨fun h => ?_, fun c h hdup => ?_, fun h hdup hfree => ?_, fun ch h hdup hfree => ?_⟩
  · simp [channel_add_build, h]
  · simp [channel_add_build, h, hdup]
  · simp [channel_add_build, h, hdup, hfree]
  · simp [channel_add_build, h, hdup, hfree]

/-- C5 witness: each branch of the theorem exercised at a concrete
input — an over-long name, Scenario B's duplicate "alerts", a full
channel table, and a successful add into slot 1. -/
theorem c5_channel_add_witness :
    channel_add_build testNode "eleven-chars!" [7] =
      (⟨1, "Channel name must be shorter than 10 characters."⟩, testNode, []) ∧
    channel_add_build testNodeDup "alerts" [7] =
      (⟨1, "Channel " ++ String.mk [Char.ofNat 39] ++ "alerts" ++ String.mk [Char.ofNat 39] ++
        " already exists."⟩, testNodeDup, []) ∧
    channel_add_build testNodeFull "chat" [7] =
      (⟨1, "No free channels were found."⟩, testNodeFull, []) ∧
    channel_add_build testNode "alerts" [7] =
      (⟨0, "Channel added."⟩,
       { testNode with channels :=
          replaceFirstDisabled testNode.channels ⟨1, .SECONDARY, ⟨[7], "alerts"⟩⟩ },
       [DevEvent.writeChannel 1]) :=
  ⟨(c5_channel_add testNode "eleven-chars!" [7]).1 (by decide),
   (c5_channel_add testNodeDup "alerts" [7]).2.1 ⟨1, .SECONDARY, ⟨[9, 9], "alerts"⟩⟩
     (by decide) rfl,
   (c5_channel_add testNodeFull "chat" [7]).2.2.1 (by decide) rfl rfl,
   (c5_channel_add testNode "alerts" [7]).2.2.2 ⟨1, .DISABLED, ⟨[], ""⟩⟩
     (by decide) rfl rfl⟩

/-- C8 counterexample: the string "2" is not one of the named constants
of `lora.region` (UNSET, US, EU_868), yet `set` succeeds and changes the
stored value to 2 — the literal parser turns "2" into an integer first,
which bypasses the enum-name check. -/
theorem c8_enum_numeric_counterexample :
    set_pref testLocalDesc [] "lora.region" "2" =
      .ok (none, [("lora", .vmsg [("region", .vint 2)])]) ∧
    enumByName [("UNSET", 0), ("US", 1), ("EU_868", 2)] "2" = none :=
  ⟨rfl, rfl⟩

/-- C8 (amended): for every enumerated field and every value string that
the literal parser leaves as a string (it is not empty, not a 0x/base64
bytes literal, not a boolean word, and not an integer or float literal)
and that is not one of the enum's named constants, `set` fails with a
message listing exactly the field's legal constants, sorted and
comma-separated, and the configuration tree is unchanged by the failed
call.  (A string that parses as a number bypasses the name check and is
assigned as the numeric constant instead.) -/
theorem c8_enum_bad_string (desc : List FieldD) (cfg : Cfg)
    (comp_name sec fld s pname : String) (evs : List (String × Int))
    (mfs : List FieldD) (srep prep : Bool)
    (hsplit : split_compound_name comp_name = [sec, fld])
    (hsec : findField desc sec = some (sec, .fmsg mfs, srep))
    (hfld : findField mfs (camel_to_snake fld) = some (pname, .fenum evs, prep))
    (hstr : fromStr s = .ok (.pstr s))
    (henum : enumByName evs s = none) :
    set_pref desc cfg comp_name s =
      .ok (some (comp_name ++ " enum must be one of: " ++ enumChoices evs), cfg) := by
  simp only [set_pref, hsplit, List.headD_cons, List.reverse_cons, List.reverse_nil,
    List.nil_append, List.cons_append, resolveWalk, hsec, FType.isMsg, List.drop_succ_cons,
    List.drop_zero, List.dropLast_single, walkMids, prefOf, hfld, hstr, henum, ite_self,
    enumStep]

/-- C8 witness: the amended theorem at the concrete enum field
`lora.region` and the non-constant string "NOPE". -/
theorem c8_enum_bad_string_witness :
    set_pref testLocalDesc [] "lora.region" "NOPE" =
      .ok (some ("lora.region" ++ " enum must be one of: " ++
        enumChoices [("UNSET", 0), ("US", 1), ("EU_868", 2)]), []) :=
  c8_enum_bad_string testLocalDesc [] "lora.region" "lora" "region" "NOPE" "region"
    [("UNSET", 0), ("US", 1), ("EU_868", 2)] loraFields false false
    rfl rfl rfl rfl rfl

/-- Lazy section loading only ever issues a config read request, never a
write or a transaction call. -/
theorem ensure_no_writes (node : Node) (sec : String) :
    (ensure_config_loaded node sec).filter isWriteEvent = [] := by
  unfold ensure_config_loaded
  cases select_config node sec with
  | none => rfl
  | some side =>
    dsimp only
    split
    · split <;> simp [isWriteEvent]
    · rfl

/-- Section writes survive the write filter. -/
theorem filter_write_map_writeConfig (l : List String) :
    (l.map DevEvent.writeConfig).filter isWriteEvent = l.map DevEvent.writeConfig := by
  induction l with
  | nil => rfl
  | cons x xs ih => simp [isWriteEvent, ih]

/-- When the per-update loop finishes without an early error, the section
list it accumulated is the fold recording distinct first segments in
first-touched order, and it has issued no write or transaction event. -/
theorem applyLoop_ok_none (updates : List (String × String)) :
    ∀ node secs evs res node2 evs2,
    applyLoop node secs evs updates = .ok ((none, res), node2, evs2) →
    res = updates.foldl (fun acc u =>
      if acc.contains (firstSegment u.1) then acc else acc ++ [firstSegment u.1]) secs ∧
    evs2.filter isWriteEvent = evs.filter isWriteEvent := by
  induction updates with
  | nil =>
    intro node secs evs res node2 evs2 h
    simp only [applyLoop, Py.ok.injEq, Prod.mk.injEq] at h
    obtain ⟨⟨_, h1⟩, _, h2⟩ := h
    exact ⟨h1.symm, by rw [h2]⟩
  | cons u rest ih =>
    intro node secs evs res node2 evs2 h
    simp only [applyLoop] at h
    cases hsel : select_config node (firstSegment u.1) with
    | none => rw [hsel] at h; simp at h
    | some side =>
      rw [hsel] at h
      dsimp only at h
      cases hsp : set_pref (sideDesc node side) (sideCfg node side) u.1 u.2 with
      | exc e => rw [hsp] at h; simp at h
      | ok pr =>
        obtain ⟨err, cfg2⟩ := pr
        rw [hsp] at h
        dsimp only at h
        cases err with
        | some e => simp at h
        | none =>
          obtain ⟨h1, h2⟩ := ih _ _ _ _ _ _ h
          refine ⟨by simpa using h1, ?_⟩
          rw [h2, List.filter_append, ensure_no_writes, List.append_nil]

/-- When the per-update loop stops at an early error, the error result
carries returncode 1 and no write or transaction event was issued. -/
theorem applyLoop_ok_some (updates : List (String × String)) :
    ∀ node secs evs r s2 node2 evs2,
    applyLoop node secs evs updates = .ok ((some r, s2), node2, evs2) →
    r.returncode = 1 ∧ evs2.filter isWriteEvent = evs.filter isWriteEvent := by
  induction updates with
  | nil =>
    intro node secs evs r s2 node2 evs2 h
    simp [applyLoop] at h
  | cons u rest ih =>
    intro node secs evs r s2 node2 evs2 h
    simp only [applyLoop] at h
    cases hsel : select_config node (firstSegment u.1) with
    | none =>
      rw [hsel] at h
      simp only [Py.ok.injEq, Prod.mk.injEq, Option.some.injEq] at h
      obtain ⟨⟨h1, _⟩, _, h2⟩ := h
      exact ⟨by rw [← h1], by rw [h2]⟩
    | some side =>
      rw [hsel] at h
      dsimp only at h
      cases hsp : set_pref (sideDesc node side) (sideCfg node side) u.1 u.2 with
      | exc e => rw [hsp] at h; simp at h
      | ok pr =>
        obtain ⟨err, cfg2⟩ := pr
        rw [hsp] at h
        dsimp only at h
        cases err with
        | some e =>
          simp only [Py.ok.injEq, Prod.mk.injEq, Option.some.injEq] at h
          obtain ⟨⟨h1, _⟩, _, h2⟩ := h
          refine ⟨by rw [← h1], ?_⟩
          rw [← h2, List.filter_append, ensure_no_writes, List.append_nil]
        | none =>
          dsimp only at h
          obtain ⟨h1, h2⟩ := ih _ _ _ _ _ _ _ h
          refine ⟨h1, ?_⟩
          rw [h2, List.filter_append, ensure_no_writes, List.append_nil]

/-- C1: for every non-empty update list whose entries all resolve and set
successfully (the batch call returns the success result), the write-level
trace is exactly: begin-transaction, one section write per distinct
touched section in first-touched order, commit-transaction when more than
one section was touched; and a single section write with no transaction
calls when exactly one section was touched. -/
theorem c1_batch_sections_transaction (node : Node) (updates : List (String × String))
    (res : MeshtasticResult) (node2 : Node) (evs : List DevEvent)
    (hne : ¬ updates = [])
    (happ : apply_preferences node updates = .ok (res, node2, evs))
    (hok : res.returncode = 0) :
    evs.filter isWriteEvent =
      (if 1 < (distinctSections updates).length then [DevEvent.beginTransaction] else []) ++
      (distinctSections updates).map DevEvent.writeConfig ++
      (if 1 < (distinctSections updates).length then [DevEvent.commitTransaction] else []) := by
  unfold apply_preferences at happ
  rw [if_neg (by simpa [List.isEmpty_iff] using hne)] at happ
  cases hloop : applyLoop node [] [] updates with
  | exc e => rw [hloop] at happ; simp at happ
  | ok triple =>
    obtain ⟨⟨optRes, secs⟩, n2, e2⟩ := triple
    rw [hloop] at happ
    cases optRes with
    | some r =>
      dsimp only at happ
      obtain ⟨h1, _⟩ := applyLoop_ok_some updates _ _ _ _ _ _ _ hloop
      simp only [Py.ok.injEq, Prod.mk.injEq] at happ
      rw [← happ.1] at hok
      rw [h1] at hok
      cases hok
    | none =>
      dsimp only at happ
      obtain ⟨h1, h2⟩ := applyLoop_ok_none updates _ _ _ _ _ _ hloop
      simp only [Py.ok.injEq, Prod.mk.injEq] at happ
      obtain ⟨_, _, hevs⟩ := happ
      rw [← hevs]
      have hsecs : secs = distinctSections updates := by
        rw [h1]; rfl
      simp only [List.filter_append, h2, List.filter_nil, filter_write_map_writeConfig,
        List.nil_append, hsecs]
      by_cases hlen : 1 < (distinctSections updates).length
      · simp [hlen, isWriteEvent]
      · simp [hlen, isWriteEvent]

/-- C1 witness: a two-section batch (`lora` then `mqtt`, with `lora`
touched twice) is wrapped in a transaction with the writes in
first-touched order, applied to the fixture node. -/
theorem c1_batch_sections_transaction_witness :
    ∃ res node2 evs,
      apply_preferences testNode
        [("lora.region", "US"), ("mqtt.enabled", "true"), ("lora.hop_limit", "7")] =
        .ok (res, node2, evs) ∧
      evs.filter isWriteEvent =
        [DevEvent.beginTransaction, DevEvent.writeConfig "lora", DevEvent.writeConfig "mqtt",
         DevEvent.commitTransaction] := by
  refine ⟨⟨0, "Preferences updated."⟩,
    { testNode with
        localConfig := [("lora", .vmsg [("region", .vint 1), ("hop_limit", .vint 7)])],
        moduleConfig := [("mqtt", .vmsg [("enabled", .vbool true)])] },
    _, rfl, ?_⟩
  exact c1_batch_sections_transaction testNode
    [("lora.region", "US"), ("mqtt.enabled", "true"), ("lora.hop_limit", "7")]
    ⟨0, "Preferences updated."⟩ _ _ (by simp) rfl rfl

/-- C4: when the batch call returns a failure (some update failed to
resolve or set), zero section writes and zero transaction calls were
issued — the write phase runs only after every update has been set — even
though updates earlier in the list have already been applied to the
in-memory configuration tree, as the second conjunct exhibits on a
concrete run whose failing call leaves the first update's value in the
tree. -/
theorem c4_failure_aborts_before_writes :
    (∀ node updates res node2 evs,
      apply_preferences node updates = .ok (res, node2, evs) →
      ¬ res.returncode = 0 →
      evs.filter isWriteEvent = []) ∧
    (∃ node updates res node2 evs,
      apply_preferences node updates = .ok (res, node2, evs) ∧
      ¬ res.returncode = 0 ∧
      ¬ node2.localConfig = node.localConfig) := by
  constructor
  · intro node updates res node2 evs happ hfail
    unfold apply_preferences at happ
    by_cases hne : updates.isEmpty = true
    · rw [if_pos hne] at happ
      simp only [Py.ok.injEq, Prod.mk.injEq] at happ
      rw [← happ.2.2]
      rfl
    · rw [if_neg hne] at happ
      cases hloop : applyLoop node [] [] updates with
      | exc e => rw [hloop] at happ; simp at happ
      | ok triple =>
        obtain ⟨⟨optRes, secs⟩, n2, e2⟩ := triple
        rw [hloop] at happ
        cases optRes with
        | some r =>
          dsimp only at happ
          obtain ⟨_, h2⟩ := applyLoop_ok_some updates _ _ _ _ _ _ _ hloop
          simp only [Py.ok.injEq, Prod.mk.injEq] at happ
          rw [← happ.2.2, h2]
          rfl
        | none =>
          dsimp only at happ
          simp only [Py.ok.injEq, Prod.mk.injEq] at happ
          rw [← happ.1] at hfail
          simp at hfail
  · refine ⟨testNode, [("lora.region", "US"), ("bogus.x", "1")],
      ⟨1, "Unknown preference section: bogus"⟩,
      { testNode with localConfig := [("lora", .vmsg [("region", .vint 1)])] },
      [.requestConfig "lora"], rfl, by decide, by simp [testNode]⟩

/-- C4 witness: the universally quantified conjunct applied to a concrete
failing batch (unknown section in the second update). -/
theorem c4_failure_aborts_before_writes_witness :
    ([DevEvent.requestConfig "lora"].filter isWriteEvent : List DevEvent) = [] :=
  c4_failure_aborts_before_writes.1 testNode [("lora.region", "US"), ("bogus.x", "1")]
    ⟨1, "Unknown preference section: bogus"⟩
    { testNode with localConfig := [("lora", .vmsg [("region", .vint 1)])] }
    [.requestConfig "lora"] rfl (by decide)

/-- Action-run counts add up over concatenated traces. -/
theorem countActionRuns_append (a b : List ConnEvent) :
    countActionRuns (a ++ b) = countActionRuns a + countActionRuns b := by
  simp [countActionRuns, List.filter_append]

/-- A single action-run event counts once. -/
theorem countActionRuns_runAction (k : Nat) :
    countActionRuns [ConnEvent.runAction k] = 1 := rfl

/-- The handshake step never runs the caller's action. -/
theorem waitStep_no_action (env : ExecEnv) (st : SessionState) (wfc : Bool) (id : Nat) :
    countActionRuns (waitStep env st wfc id).2.2 = 0 := by
  unfold waitStep
  split_ifs <;> rfl

/-- The handshake step returns no connection or the one it was given. -/
theorem waitStep_iface (env : ExecEnv) (st : SessionState) (wfc : Bool) (id : Nat) :
    (waitStep env st wfc id).1.2 = none ∨ (waitStep env st wfc id).1.2 = some id := by
  unfold waitStep
  split_ifs <;> simp

/-- When the handshake step hands back a connection, the session state it
leaves behind caches that connection. -/
theorem waitStep_ok_state (env : ExecEnv) (st : SessionState) (wfc : Bool) (id id2 : Nat)
    (hst : st.interface = some id)
    (h : (waitStep env st wfc id).1.2 = some id2) :
    (waitStep env st wfc id).2.1.interface = some id2 := by
  unfold waitStep at h ⊢
  split_ifs at h ⊢ <;> simp_all

/-- The handshake step never issues a connect event. -/
theorem waitStep_no_connect (env : ExecEnv) (st : SessionState) (wfc : Bool) (id : Nat) :
    hasConnectEvent (waitStep env st wfc id).2.2 = false := by
  unfold waitStep
  split_ifs <;> rfl

/-- The connect-if-needed step never runs the caller's action. -/
theorem getInterfaceConn_no_action (env : ExecEnv) (cur : Nat) (st1 : SessionState)
    (evs0 : List ConnEvent) (wfc : Bool) (h0 : countActionRuns evs0 = 0) :
    countActionRuns (getInterfaceConn env cur st1 evs0 wfc).2.2.2 = 0 := by
  unfold getInterfaceConn
  cases hi : st1.interface with
  | some id =>
    dsimp only
    rw [countActionRuns_append, h0, waitStep_no_action]
  | none =>
    cases hc : env.conn cur with
    | error e =>
      dsimp only
      rw [countActionRuns_append, h0]
      rfl
    | ok id =>
      dsimp only
      rw [countActionRuns_append, countActionRuns_append, h0, waitStep_no_action]
      rfl

/-- A `get_interface` call never runs the caller's action. -/
theorem get_interface_no_action (env : ExecEnv) (cur : Nat) (st : SessionState)
    (wfc rc : Bool) :
    countActionRuns (get_interface env cur st wfc rc).2.2.2 = 0 := by
  unfold get_interface
  apply getInterfaceConn_no_action
  cases rc with
  | false => rfl
  | true =>
    unfold sessionClose
    cases st.interface <;> rfl

/-- A successful connect-if-needed step caches the connection it
returned. -/
theorem getInterfaceConn_ok_state (env : ExecEnv) (cur : Nat) (st1 : SessionState)
    (evs0 : List ConnEvent) (wfc : Bool) (id : Nat) (st2 : SessionState) (cur2 : Nat)
    (evs : List ConnEvent)
    (h : getInterfaceConn env cur st1 evs0 wfc = ((none, some id), st2, cur2, evs)) :
    st2.interface = some id := by
  unfold getInterfaceConn at h
  cases hi : st1.interface with
  | some id0 =>
    rw [hi] at h
    dsimp only at h
    have h1 : (waitStep env st1 wfc id0).1.2 = some id := by
      have := congrArg (fun t => t.1.2) h
      simpa using this
    have h3 : (waitStep env st1 wfc id0).2.1 = st2 := by
      have := congrArg (fun t => t.2.1) h
      simpa using this
    rw [← h3]
    exact waitStep_ok_state env st1 wfc id0 id hi h1
  | none =>
    rw [hi] at h
    cases hc : env.conn cur with
    | error e => rw [hc] at h; simp at h
    | ok id0 =>
      rw [hc] at h
      dsimp only at h
      have h1 : (waitStep env ⟨some id0, false⟩ wfc id0).1.2 = some id := by
        have := congrArg (fun t => t.1.2) h
        simpa using this
      have h3 : (waitStep env ⟨some id0, false⟩ wfc id0).2.1 = st2 := by
        have := congrArg (fun t => t.2.1) h
        simpa using this
      rw [← h3]
      exact waitStep_ok_state env ⟨some id0, false⟩ wfc id0 id rfl h1

/-- A successful `get_interface` call caches the connection it returned. -/
theorem get_interface_ok_state (env : ExecEnv) (cur : Nat) (st : SessionState)
    (wfc rc : Bool) (id : Nat) (st2 : SessionState) (cur2 : Nat) (evs : List ConnEvent)
    (h : get_interface env cur st wfc rc = ((none, some id), st2, cur2, evs)) :
    st2.interface = some id := by
  unfold get_interface at h
  exact getInterfaceConn_ok_state env cur _ _ wfc id st2 cur2 evs h

/-- A reconnecting `get_interface` call on a session holding connection
`c` closes `c` before anything else. -/
theorem get_interface_reconnect_closes (env : ExecEnv) (cur : Nat) (st : SessionState)
    (c : Nat) (wfc : Bool) (h : st.interface = some c) :
    ∃ rest, (get_interface env cur st wfc true).2.2.2 = ConnEvent.close c :: rest := by
  unfold get_interface sessionClose
  rw [if_pos rfl, h]
  dsimp only
  unfold getInterfaceConn
  dsimp only
  cases hc : env.conn cur with
  | error e => exact ⟨[.connect none], rfl⟩
  | ok id => exact ⟨_, rfl⟩

/-- C3: on one session holding cached connection `c`: a call without
reconnect opens no new connection and any connection it returns is the
cached `c`; a call with reconnect closes `c` before anything else (in
particular before any connect); and once the ready-handshake has
completed on the current connection (`configLoaded`), a later call
without reconnect never repeats it. -/
theorem c3_session_lifecycle (env : ExecEnv) (cur : Nat) (st : SessionState)
    (c : Nat) (wfc : Bool) (hcache : st.interface = some c) :
    (hasConnectEvent (get_interface env cur st wfc false).2.2.2 = false ∧
      ((get_interface env cur st wfc false).1.2 = none ∨
       (get_interface env cur st wfc false).1.2 = some c)) ∧
    (∃ rest, (get_interface env cur st wfc true).2.2.2 = ConnEvent.close c :: rest) ∧
    (st.configLoaded = true →
      hasWaitEvent (get_interface env cur st wfc false).2.2.2 = false) := by
  refine ⟨?_, get_interface_reconnect_closes env cur st c wfc hcache, ?_⟩
  · unfold get_interface getInterfaceConn
    simp only [Bool.false_eq_true, if_false]
    rw [hcache]
    dsimp only
    constructor
    · simpa [hasConnectEvent] using waitStep_no_connect env st wfc c
    · simpa using waitStep_iface env st wfc c
  · intro hl
    unfold get_interface getInterfaceConn waitStep
    simp only [Bool.false_eq_true, if_false]
    rw [hcache]
    simp [hl, hasWaitEvent]

/-- C3 witness: a loaded session on connection 5, in an environment whose
next connect would yield connection 6. -/
theorem c3_session_lifecycle_witness :
    (hasConnectEvent (get_interface ⟨fun _ => .ok 6, fun _ => true, fun _ _ => .ok ⟨0, ""⟩⟩
        0 ⟨some 5, true⟩ true false).2.2.2 = false ∧
      ((get_interface ⟨fun _ => .ok 6, fun _ => true, fun _ _ => .ok ⟨0, ""⟩⟩
          0 ⟨some 5, true⟩ true false).1.2 = none ∨
       (get_interface ⟨fun _ => .ok 6, fun _ => true, fun _ _ => .ok ⟨0, ""⟩⟩
          0 ⟨some 5, true⟩ true false).1.2 = some 5)) ∧
    (∃ rest, (get_interface ⟨fun _ => .ok 6, fun _ => true, fun _ _ => .ok ⟨0, ""⟩⟩
        0 ⟨some 5, true⟩ true true).2.2.2 = ConnEvent.close 5 :: rest) ∧
    ((⟨some 5, true⟩ : SessionState).configLoaded = true →
      hasWaitEvent (get_interface ⟨fun _ => .ok 6, fun _ => true, fun _ _ => .ok ⟨0, ""⟩⟩
        0 ⟨some 5, true⟩ true false).2.2.2 = false) :=
  c3_session_lifecycle ⟨fun _ => .ok 6, fun _ => true, fun _ _ => .ok ⟨0, ""⟩⟩
    0 ⟨some 5, true⟩ 5 true rfl

/-- Environment for the C2 scenario: every connect yields connection 8
with a successful handshake; the first action run raises "boom" (a
Generic failure), any retry succeeds. -/
def c2Env : ExecEnv :=
  ⟨fun _ => .ok 8, fun _ => true,
   fun attempt _ => if attempt = 0 then .exc "boom" else .ok ⟨0, "done"⟩⟩

/-- C2 counterexample: with a long-lived session on connection 7 whose
handshake is done, a first action run failing with "boom" — classified
Generic, not Timeout or ConnectionLost — still triggers the
reconnect-and-retry: the trace shows the close of connection 7, a new
connect and handshake, and a second action run, and the caller sees the
retry's success. -/
theorem c2_generic_failure_retried_counterexample :
    classify "boom" = .Generic ∧
    run_meshtastic_action c2Env 0 true (some ⟨some 7, true⟩) =
      (⟨0, "done"⟩, some ⟨some 8, true⟩,
       [.runAction 0, .close 7, .connect (some 8), .waitConfig 8, .runAction 1]) :=
  ⟨by decide, rfl⟩

/-- C2 (amended): with a long-lived Session whose connection was
obtained, ANY exception from the first action run — regardless of its
Timeout / ConnectionLost / Generic classification — triggers the
reconnect-and-retry: the old connection is closed immediately after the
failed first run, the action is run at most twice in total, and a second
failure is surfaced as the generic failure message with no further
retry.  With no Session supplied, the failure is surfaced immediately:
the action runs once and the one-shot connection is closed. -/
theorem c2_retry_policy :
    (∀ (env : ExecEnv) (cur : Nat) (st : SessionState) (wfc : Bool) (id : Nat) (e : String)
       (st2 : SessionState) (cur2 : Nat) (evs1 : List ConnEvent),
      get_interface env cur st wfc false = ((none, some id), st2, cur2, evs1) →
      env.runAct 0 id = .exc e →
      ((∃ rest, (run_meshtastic_action env cur wfc (some st)).2.2 =
          evs1 ++ ConnEvent.runAction 0 :: ConnEvent.close id :: rest) ∧
       countActionRuns (run_meshtastic_action env cur wfc (some st)).2.2 ≤ 2 ∧
       (∀ (id2 : Nat) (st3 : SessionState) (cur3 : Nat) (evs2 : List ConnEvent) (e2 : String),
         get_interface env cur2 st2 wfc true = ((none, some id2), st3, cur3, evs2) →
         env.runAct 1 id2 = .exc e2 →
         run_meshtastic_action env cur wfc (some st) =
           (⟨1, "Meshtastic command failed: " ++ e2⟩, some st3,
            evs1 ++ [ConnEvent.runAction 0] ++ evs2 ++ [ConnEvent.runAction 1])))) ∧
    (∀ (env : ExecEnv) (cur : Nat) (wfc : Bool) (id : Nat) (e : String),
      env.conn cur = .ok id →
      env.runAct 0 id = .exc e →
      run_meshtastic_action env cur wfc none =
        (⟨1, "Meshtastic command failed: " ++ e⟩, none,
         [.connect (some id), .runAction 0, .close id])) := by
  constructor
  · intro env cur st wfc id e st2 cur2 evs1 h1 h2
    have hev1 : countActionRuns evs1 = 0 := by
      have h := get_interface_no_action env cur st wfc false
      rw [h1] at h
      exact h
    have hst2 : st2.interface = some id :=
      get_interface_ok_state env cur st wfc false id st2 cur2 evs1 h1
    obtain ⟨restC, hrestC⟩ := get_interface_reconnect_closes env cur2 st2 id wfc hst2
    have third : ∀ (id2 : Nat) (st3 : SessionState) (cur3 : Nat) (evs2 : List ConnEvent)
        (e2 : String),
        get_interface env cur2 st2 wfc true = ((none, some id2), st3, cur3, evs2) →
        env.runAct 1 id2 = .exc e2 →
        run_meshtastic_action env cur wfc (some st) =
          (⟨1, "Meshtastic command failed: " ++ e2⟩, some st3,
           evs1 ++ [ConnEvent.runAction 0] ++ evs2 ++ [ConnEvent.runAction 1]) := by
      intro id2 st3 cur3 evs2 e2 hre hr1
      unfold run_meshtastic_action
      dsimp only
      rw [h1]
      dsimp only
      rw [h2]
      dsimp only
      rw [hre]
      dsimp only
      rw [hr1]
    have both : (∃ rest, (run_meshtastic_action env cur wfc (some st)).2.2 =
          evs1 ++ ConnEvent.runAction 0 :: ConnEvent.close id :: rest) ∧
        countActionRuns (run_meshtastic_action env cur wfc (some st)).2.2 ≤ 2 := by
      unfold run_meshtastic_action
      dsimp only
      rw [h1]
      dsimp only
      rw [h2]
      dsimp only
      rcases hre : get_interface env cur2 st2 wfc true with ⟨⟨err2, ifc2⟩, st3, cur3, evs2⟩
      have hev2 : countActionRuns evs2 = 0 := by
        have h := get_interface_no_action env cur2 st2 wfc true
        rw [hre] at h
        exact h
      rw [hre] at hrestC
      dsimp only at hrestC
      rw [hrestC] at hev2 ⊢
      cases err2 with
      | some e2 =>
        dsimp only
        refine ⟨⟨restC, by simp⟩, ?_⟩
        simp only [countActionRuns_append, hev1, hev2, countActionRuns_runAction]
        omega
      | none =>
        cases ifc2 with
        | none =>
          dsimp only
          refine ⟨⟨restC, by simp⟩, ?_⟩
          simp only [countActionRuns_append, hev1, hev2, countActionRuns_runAction]
          omega
        | some id2 =>
          dsimp only
          cases hr1 : env.runAct 1 id2 with
          | ok r =>
            dsimp only
            refine ⟨⟨restC ++ [ConnEvent.runAction 1], by simp⟩, ?_⟩
            simp only [countActionRuns_append, hev1, hev2, countActionRuns_runAction]
            omega
          | exc e2 =>
            dsimp only
            refine ⟨⟨restC ++ [ConnEvent.runAction 1], by simp⟩, ?_⟩
            simp only [countActionRuns_append, hev1, hev2, countActionRuns_runAction]
            omega
    exact ⟨both.1, both.2, third⟩
  · intro env cur wfc id e hc hr
    unfold run_meshtastic_action
    dsimp only
    rw [hc]
    dsimp only
    rw [hr]

/-- C2 witness: the amended theorem's two parts applied in the concrete
environment — the session part at the cached, loaded session on
connection 7, the no-session part at a one-shot connection 8 — with
every hypothesis discharged by evaluation. -/
theorem c2_retry_policy_witness :
    countActionRuns (run_meshtastic_action c2Env 0 true (some ⟨some 7, true⟩)).2.2 ≤ 2 ∧
    run_meshtastic_action c2Env 0 true none =
      (⟨1, "Meshtastic command failed: " ++ "boom"⟩, none,
       [.connect (some 8), .runAction 0, .close 8]) :=
  ⟨(c2_retry_policy.1 c2Env 0 ⟨some 7, true⟩ true 7 "boom" ⟨some 7, true⟩ 0 [] rfl rfl).2.1,
   c2_retry_policy.2 c2Env 0 true 8 "boom" rfl rfl⟩

end MpwrdMeshtastic
